import Mathlib

/-!
Shallow embedding of the sensor-dashboard pipeline in `src/app.py`:
the fetch/clean/compute logic of `fetch_data` (query building, type
coercion, NaN dropping, timestamp sort, rolling average, rate of change),
the trend classification of lines 69-75, and the TTL memoization applied
to `fetch_data` by its cache decorator.

Conventions: timestamps are rationals (seconds since epoch, the value of
`timestamp.diff().dt.total_seconds()` is then plain subtraction); reading
values are rationals; a raw record's value is `Option ℚ`, `none` standing
for a value that `pd.to_numeric(errors := coerce)` turns into NaN and that
`dropna` then removes.  Float-special values that arise downstream
(NaN from `diff()` at position 0, signed infinities from division by a
zero time delta) are represented by the inductive `FP`.
-/

namespace SensorApp

/-- Float-like value: a finite rational, NaN, or a signed infinity.
Mirrors the IEEE-754 outcomes pandas produces in `fetch_data`. -/
inductive FP where
  | nan : FP
  | pinf : FP
  | ninf : FP
  | fin : ℚ → FP
deriving DecidableEq, Repr

/-- Raw record as returned by the Store: a timestamp and a reading value
that may fail numeric coercion (`none` after `to_numeric` + `dropna`). -/
structure Record where
  timestamp : ℚ
  value : Option ℚ
deriving DecidableEq, Repr

/-- Record of the cleaned series: coercion succeeded, value is finite. -/
structure CRecord where
  timestamp : ℚ
  value : ℚ
deriving DecidableEq, Repr

/-- Value coercion of app.py line 44 + the drop of line 47: a record
survives iff its reading value coerced to a number. -/
def parseRecord (r : Record) : Option CRecord :=
  r.value.map (fun v => ⟨r.timestamp, v⟩)

/-- Comparison used by `sort_values(by := timestamp)` (line 48). -/
def byTime (a b : CRecord) : Prop := a.timestamp ≤ b.timestamp

instance : DecidableRel byTime := fun a b =>
  inferInstanceAs (Decidable (a.timestamp ≤ b.timestamp))

instance : IsTotal CRecord byTime :=
  ⟨fun a b => le_total a.timestamp b.timestamp⟩

instance : IsTrans CRecord byTime :=
  ⟨fun _ _ _ h h' => le_trans h h'⟩

/-- Cleaner stage of `fetch_data` (app.py lines 41-48): coerce values,
drop records whose value is not numeric, sort ascending by timestamp.
The code performs no deduplication of timestamps. -/
def normalize (raw : List Record) : List CRecord :=
  List.insertionSort byTime (raw.filterMap parseRecord)

/-- C1: for every input batch the cleaned series has strictly increasing
timestamps, no two records share a timestamp, and for a duplicated
timestamp exactly the last-seen record is kept.  Refuted: `normalize`
only sorts; on the batch `[(0,10),(0,99)]` both records survive and share
timestamp `0`. -/
theorem c1_counterexample :
    normalize [⟨0, some 10⟩, ⟨0, some 99⟩] =
      [⟨0, 10⟩, ⟨0, 99⟩] ∧
    (normalize [⟨0, some 10⟩, ⟨0, some 99⟩]).map CRecord.timestamp =
      [0, 0] := by
  constructor <;> rfl

/-- C1 (amended): for every input batch, the cleaned series is sorted by
timestamp (non-decreasing, duplicates allowed) and is a permutation of
the coercible records — every record with a duplicated timestamp is
retained, none is dropped or merged. -/
theorem c1_normalize_sorted_retains_all (raw : List Record) :
    (normalize raw).Sorted byTime ∧
    (normalize raw).Perm (raw.filterMap parseRecord) := by
  exact ⟨List.sorted_insertionSort byTime _,
    List.perm_insertionSort byTime _⟩

/-- C9: normalization is idempotent — rerunning it on an already-cleaned
series (finite values by construction of `CRecord`, strictly increasing
timestamps) returns the identical series. -/
theorem c9_normalize_idempotent (s : List CRecord)
    (hs : s.Pairwise (fun a b => a.timestamp < b.timestamp)) :
    normalize (s.map (fun c => (⟨c.timestamp, some c.value⟩ : Record))) = s := by
  have hfm : (s.map (fun c =>
      (⟨c.timestamp, some c.value⟩ : Record))).filterMap parseRecord = s := by
    rw [List.filterMap_map]
    have : (parseRecord ∘ fun c : CRecord =>
        (⟨c.timestamp, some c.value⟩ : Record)) = some := by
      funext c
      rfl
    rw [this, List.filterMap_some]
  unfold normalize
  rw [hfm]
  exact List.Sorted.insertionSort_eq (hs.imp (fun h => le_of_lt h))

/-- Witness for C9 at a concrete two-element cleaned series. -/
theorem c9_normalize_idempotent_witness :
    normalize [⟨0, some 1⟩, ⟨2, some 5⟩] = [⟨0, 1⟩, ⟨2, 5⟩] := by
  exact c9_normalize_idempotent [⟨0, 1⟩, ⟨2, 5⟩] (by decide)

/-- Trailing window of the rolling-mean call on app.py line 51
(`rolling(window, min_periods = 1)`): the last at most `w` values of the
series ending at index `i`. -/
def windowSlice (vals : List ℚ) (w i : ℕ) : List ℚ :=
  (vals.take (i + 1)).drop (i + 1 - w)

/-- Mean over the trailing window; `min_periods = 1` makes the window
nonempty (hence the mean defined) at every index once `1 ≤ w`. -/
def windowMean (vals : List ℚ) (w i : ℕ) : ℚ :=
  (windowSlice vals w i).sum / (windowSlice vals w i).length

/-- Rolling-average column of app.py line 51. -/
def rollingAvg (vals : List ℚ) (w : ℕ) : List ℚ :=
  (List.range vals.length).map (windowMean vals w)

/-- Trailing mean as the spec words it in §4.3: the mean of
`value[max(0, i-window+1) .. i]`; stated over indices (`i + 1 - w` is the
truncated `max(0, i-w+1)`) for comparison with `windowMean`. -/
def specWindowMean (vals : List ℚ) (w i : ℕ) : ℚ :=
  ((List.range' (i + 1 - w) (i + 1 - (i + 1 - w))).map
    (fun j => vals.getD j 0)).sum / (i + 1 - (i + 1 - w) : ℕ)

/-- Rate-of-change column of app.py lines 55-56
(`rolling_avg.diff() / time_diff`), with float semantics made explicit:
position 0 divides NaN by NaN (both diffs start undefined), a zero time
delta yields a signed infinity or NaN according to the sign of the
numerator, and otherwise the value is the finite quotient. -/
def rateOfChange (ts avg : List ℚ) : List FP :=
  (List.range ts.length).map (fun i =>
    if i = 0 then FP.nan
    else
      let d := ts.getD i 0 - ts.getD (i - 1) 0
      let dv := avg.getD i 0 - avg.getD (i - 1) 0
      if d = 0 then
        (if 0 < dv then FP.pinf else if dv < 0 then FP.ninf else FP.nan)
      else FP.fin (dv / d))

/-- The trailing window, read off by index, covers exactly the positions
from `max(0, i-w+1)` to `i`. -/
theorem windowSlice_eq_range (vals : List ℚ) (w i : ℕ) (h : i < vals.length) :
    windowSlice vals w i =
      (List.range' (i + 1 - w) (i + 1 - (i + 1 - w))).map
        (fun j => vals.getD j 0) := by
  apply List.ext_getElem
  · simp [windowSlice]
    omega
  · intro n h1 h2
    simp only [windowSlice, List.getElem_drop, List.getElem_take,
      List.getElem_map, List.getElem_range', one_mul]
    have hlt : i + 1 - w + n < vals.length := by
      simp [windowSlice] at h1
      omega
    rw [List.getD_eq_getElem?_getD, List.getElem?_eq_getElem hlt]
    rfl

/-- The code's trailing mean agrees with the spec's formula at every
in-range index. -/
theorem windowMean_eq_spec (vals : List ℚ) (w i : ℕ) (h : i < vals.length) :
    windowMean vals w i = specWindowMean vals w i := by
  unfold windowMean specWindowMean
  rw [windowSlice_eq_range vals w i h]
  congr 2
  simp

/-- Reading the rolling-average column at an in-range index gives the
trailing-window mean there. -/
theorem rollingAvg_getD (vals : List ℚ) (w i : ℕ) (h : i < vals.length) :
    (rollingAvg vals w).getD i 0 = windowMean vals w i := by
  unfold rollingAvg
  rw [List.getD_eq_getElem?_getD, List.getElem?_map]
  rw [List.getElem?_range h]
  rfl

/-- Window 1 reproduces the series exactly. -/
theorem rollingAvg_one (vals : List ℚ) : rollingAvg vals 1 = vals := by
  apply List.ext_getElem
  · simp [rollingAvg]
  · intro n h1 h2
    have hn : n < vals.length := by simpa [rollingAvg] using h1
    have hs : windowSlice vals 1 n = [vals[n]] := by
      apply List.ext_getElem
      · simp [windowSlice]
        omega
      · intro m hm1 hm2
        have hm : m = 0 := by
          simp [windowSlice] at hm1
          omega
        subst hm
        simp [windowSlice, List.getElem_drop, List.getElem_take]
    have hgd : (rollingAvg vals 1)[n] = (rollingAvg vals 1).getD n 0 := by
      rw [List.getD_eq_getElem?_getD, List.getElem?_eq_getElem h1]
      rfl
    rw [hgd, rollingAvg_getD vals 1 n hn]
    unfold windowMean
    rw [hs]
    simp

/-- C7: in the default trailing mode, for every window of at least 1 the
rolling average at each index is the mean of
`value[max(0, i-window+1) .. i]` (partial shrinking window at the start),
and window 1 reproduces the series values exactly. -/
theorem c7_trailing_rolling_avg (vals : List ℚ) (w : ℕ) (_hw : 1 ≤ w) :
    (∀ i, i < vals.length →
      (rollingAvg vals w).getD i 0 = specWindowMean vals w i) ∧
    rollingAvg vals 1 = vals := by
  refine ⟨fun i hi => ?_, rollingAvg_one vals⟩
  rw [rollingAvg_getD vals w i hi]
  exact windowMean_eq_spec vals w i hi

/-- Witness for C7 on the spec's end-to-end example series with
window 2. -/
theorem c7_trailing_rolling_avg_witness :
    (rollingAvg [10, 12, 11] 2).getD 2 0 = specWindowMean [10, 12, 11] 2 2 ∧
    rollingAvg [10, 12, 11] 1 = [10, 12, 11] := by
  have h := c7_trailing_rolling_avg [10, 12, 11] 2 (by decide)
  exact ⟨h.1 2 (by decide), h.2⟩

/-- C4: the claim that a zero time delta always makes the rate of change
the undefined sentinel and never an infinity.  Refuted: with duplicated
timestamp `0` and rolling averages `[1, 3]`, the division `2 / 0` of
line 56 produces `+inf`, not NaN. -/
theorem c4_counterexample :
    rateOfChange [0, 0] (rollingAvg [1, 3] 1) = [FP.nan, FP.pinf] ∧
    FP.pinf ≠ FP.nan := by
  constructor
  · norm_num [rateOfChange, rollingAvg, windowMean, windowSlice,
      List.range_succ]
  · decide

/-- C4 (amended): `rate_of_change[0]` is always NaN; at an index with a
zero time delta the element is `+inf`, `-inf`, or NaN according to the
sign of the rolling-average difference (no exception is raised); at a
nonzero delta it is the finite quotient of the rolling-average
difference by the delta in seconds. -/
theorem c4_rate_of_change_zero_delta (ts avg : List ℚ) (i : ℕ)
    (hi : i < ts.length) :
    (rateOfChange ts avg).getD 0 FP.nan = FP.nan ∧
    (1 ≤ i → ts.getD i 0 - ts.getD (i - 1) 0 = 0 →
      (rateOfChange ts avg).getD i FP.nan =
        (if 0 < avg.getD i 0 - avg.getD (i - 1) 0 then FP.pinf
         else if avg.getD i 0 - avg.getD (i - 1) 0 < 0 then FP.ninf
         else FP.nan)) ∧
    (1 ≤ i → ts.getD i 0 - ts.getD (i - 1) 0 ≠ 0 →
      (rateOfChange ts avg).getD i FP.nan =
        FP.fin ((avg.getD i 0 - avg.getD (i - 1) 0) /
          (ts.getD i 0 - ts.getD (i - 1) 0))) := by
  have key : ∀ j, j < ts.length → (rateOfChange ts avg).getD j FP.nan =
      (if j = 0 then FP.nan
       else
         let d := ts.getD j 0 - ts.getD (j - 1) 0
         let dv := avg.getD j 0 - avg.getD (j - 1) 0
         if d = 0 then
           (if 0 < dv then FP.pinf else if dv < 0 then FP.ninf else FP.nan)
         else FP.fin (dv / d)) := by
    intro j hj
    unfold rateOfChange
    rw [List.getD_eq_getElem?_getD, List.getElem?_map, List.getElem?_range hj]
    rfl
  refine ⟨?_, fun h1 h2 => ?_, fun h1 h2 => ?_⟩
  · rw [key 0 (by omega)]
    rfl
  · rw [key i hi]
    simp only [h2]
    have : ¬ i = 0 := by omega
    simp [this]
  · rw [key i hi]
    have hne : ¬ i = 0 := by omega
    simp only [List.getD_eq_getElem?_getD] at h2 ⊢
    simp [hne, h2]

/-- Witness for C4 (amended): duplicated timestamps with rising and
flat rolling averages, and a separated pair with a finite quotient. -/
theorem c4_rate_of_change_zero_delta_witness :
    (rateOfChange [0, 0, 2] [1, 3, 7]).getD 0 FP.nan = FP.nan ∧
    (rateOfChange [0, 0, 2] [1, 3, 7]).getD 1 FP.nan = FP.pinf ∧
    (rateOfChange [0, 0, 2] [1, 3, 7]).getD 2 FP.nan = FP.fin 2 := by
  have h1 := c4_rate_of_change_zero_delta [0, 0, 2] [1, 3, 7] 1 (by decide)
  have h2 := c4_rate_of_change_zero_delta [0, 0, 2] [1, 3, 7] 2 (by decide)
  refine ⟨h1.1, ?_, ?_⟩
  · rw [h1.2.1 (by decide) (by norm_num)]
    norm_num
  · rw [h2.2.2 (by decide) (by norm_num)]
    norm_num

/-- Discrete trend label assigned on app.py lines 70-75. -/
inductive TrendState where
  | Rising : TrendState
  | Falling : TrendState
  | Stable : TrendState
deriving DecidableEq, Repr

/-- Latest velocity of app.py line 69: the last element of the
rate-of-change column when the column is nonempty, else `0`.  The code
takes `iloc[-1]` directly; it does not scan past NaN entries. -/
def latestVel (roc : List FP) : FP :=
  (roc.getLast?).getD (FP.fin 0)

/-- Comparison `x > q` under IEEE semantics: NaN compares false,
infinities compare by sign. -/
def fpGt (x : FP) (q : ℚ) : Bool :=
  match x with
  | FP.nan => false
  | FP.pinf => true
  | FP.ninf => false
  | FP.fin a => decide (q < a)

/-- Comparison `x < q` under IEEE semantics. -/
def fpLt (x : FP) (q : ℚ) : Bool :=
  match x with
  | FP.nan => false
  | FP.pinf => false
  | FP.ninf => true
  | FP.fin a => decide (a < q)

/-- Trend classification of app.py lines 70-75: thresholds at
`±0.005 = ±1/200` on the latest velocity. -/
def classify (roc : List FP) : TrendState :=
  if fpGt (latestVel roc) (1 / 200) then TrendState.Rising
  else if fpLt (latestVel roc) (-(1 / 200)) then TrendState.Falling
  else TrendState.Stable

/-- C5: the claim that the classifier scans backwards past undefined
entries for the last defined velocity.  Refuted: on `[1, NaN]` the
defined value `1 > 0.005` should classify Rising, but the code reads
only the final element (NaN) and yields Stable. -/
theorem c5_counterexample :
    classify [FP.fin 1, FP.nan] = TrendState.Stable ∧
    TrendState.Stable ≠ TrendState.Rising := by
  constructor
  · decide
  · decide

/-- C5 (amended): the classifier examines only the final element of
rate_of_change; when that element is NaN the result is Stable no matter
what earlier defined values exist, and when the sequence is empty the
examined velocity is `0` and the result is Stable. -/
theorem c5_classifier_last_element_only (roc : List FP) :
    (roc.getLast? = some FP.nan → classify roc = TrendState.Stable) ∧
    (roc = [] → classify roc = TrendState.Stable ∧ latestVel roc = FP.fin 0) := by
  constructor
  · intro h
    simp [classify, latestVel, h, fpGt, fpLt]
  · intro h
    subst h
    refine ⟨?_, rfl⟩
    norm_num [classify, latestVel, fpGt, fpLt]

/-- Witness for C5 (amended) at a NaN-terminated column and at the empty
column. -/
theorem c5_classifier_last_element_only_witness :
    classify [FP.fin 7, FP.nan] = TrendState.Stable ∧
    (classify [] = TrendState.Stable ∧ latestVel [] = FP.fin 0) := by
  exact ⟨(c5_classifier_last_element_only [FP.fin 7, FP.nan]).1 (by decide),
    (c5_classifier_last_element_only []).2 rfl⟩

/-- C6: a velocity above `0.005` classifies Rising, below `-0.005`
classifies Falling, and everything else — the boundaries `0.005` and
`-0.005` included — classifies Stable. -/
theorem c6_classifier_thresholds (v : ℚ) :
    classify [FP.fin v] =
      (if 1 / 200 < v then TrendState.Rising
       else if v < -(1 / 200) then TrendState.Falling
       else TrendState.Stable) ∧
    classify [FP.fin (1 / 200)] = TrendState.Stable ∧
    classify [FP.fin (-(1 / 200))] = TrendState.Stable := by
  have hv : ∀ q : ℚ, classify [FP.fin q] =
      (if 1 / 200 < q then TrendState.Rising
       else if q < -(1 / 200) then TrendState.Falling
       else TrendState.Stable) := by
    intro q
    have hl : latestVel [FP.fin q] = FP.fin q := rfl
    by_cases h1 : 1 / 200 < q
    · simp [classify, hl, fpGt, fpLt, h1]
    · by_cases h2 : q < -(1 / 200)
      · simp [classify, hl, fpGt, fpLt, h1, h2]
      · simp [classify, hl, fpGt, fpLt, h1, h2]
  refine ⟨hv v, ?_, ?_⟩
  · rw [hv]
    norm_num
  · rw [hv]
    norm_num

/-- Snapshot assembled by `fetch_data`: the cleaned series together with
its rolling-average and rate-of-change columns (the DataFrame returned
on app.py line 58). -/
structure Snapshot where
  series : List CRecord
  rolling_avg : List ℚ
  rate_of_change : List FP
deriving DecidableEq, Repr

/-- Empty DataFrame returned on app.py lines 59 and 62. -/
def emptySnapshot : Snapshot := ⟨[], [], []⟩

/-- Descending-timestamp comparison of the `order` clause on line 34. -/
def byTimeDesc (a b : Record) : Prop := b.timestamp ≤ a.timestamp

instance : DecidableRel byTimeDesc := fun a b =>
  inferInstanceAs (Decidable (b.timestamp ≤ a.timestamp))

/-- Modelled from the spec: execution of the query built on app.py
lines 34-38 happens inside the Store collaborator (Supabase client),
not in src/; per §6 it returns the table ordered descending by
timestamp, cut to the 500 most recent records unless `show_all` asks
for the full history. -/
def runQuery (tbl : List Record) (show_all : Bool) : List Record :=
  let ordered := List.insertionSort byTimeDesc tbl
  if show_all then ordered else ordered.take 500

/-- Compute stage of `fetch_data` (app.py lines 41-58): clean the
response, then derive the rolling-average and rate-of-change columns
from the cleaned series under the configured window.  An empty response
yields the empty DataFrame of line 59, all columns empty. -/
def computeSnapshot (resp : List Record) (w : ℕ) : Snapshot :=
  let series := normalize resp
  let avg := rollingAvg (series.map CRecord.value) w
  ⟨series, avg, rateOfChange (series.map CRecord.timestamp) avg⟩

/-- Successful path of `fetch_data` (app.py lines 31-58): run the query
against the Store, then clean and compute. -/
def fetch_data (tbl : List Record) (show_all : Bool) (w : ℕ) : Snapshot :=
  computeSnapshot (runQuery tbl show_all) w

/-- Cache entry: a stored value and the time it was produced. -/
structure CacheEntry (α : Type) where
  value : α
  produced_at : ℚ

/-- Cache contents: at most one entry per key. -/
def Cache (κ α : Type) : Type := κ → Option (CacheEntry α)

/-- Cache with no entries. -/
def Cache.empty (κ α : Type) : Cache κ α := fun _ => none

/-- Store a value for a key, superseding any previous entry. -/
def Cache.store [DecidableEq κ] (c : Cache κ α) (k : κ) (e : CacheEntry α) :
    Cache κ α :=
  fun k2 => if k2 = k then some e else c k2

/-- Modelled from the spec: the TTL memoization that `st.cache_data`
applies to `fetch_data` (app.py line 30) is Streamlit library code, not
in src/; per §4.5, a stored value younger than `ttl` is returned without
invoking the producer, otherwise the producer runs and its result is
stored with `produced_at = now`.  The boolean reports whether the
producer was invoked. -/
def getOrCompute [DecidableEq κ] (c : Cache κ α) (k : κ) (ttl : ℚ)
    (producer : Unit → α) (now : ℚ) : α × Cache κ α × Bool :=
  match c k with
  | some e =>
    if now - e.produced_at < ttl then (e.value, c, false)
    else
      let v := producer ()
      (v, c.store k ⟨v, now⟩, true)
  | none =>
    let v := producer ()
    (v, c.store k ⟨v, now⟩, true)

/-- One cached invocation `fetch_data(view_all)` as on app.py line 65:
the cache key is the single argument `show_all`; `window_size` is read
from the enclosing scope by the cached function body and is not part of
the key. -/
def pipelineCall (tbl : List Record) (c : Cache Bool Snapshot)
    (show_all : Bool) (w : ℕ) (ttl now : ℚ) :
    Snapshot × Cache Bool Snapshot × Bool :=
  getOrCompute c show_all ttl (fun _ => fetch_data tbl show_all w) now

/-- Error taxonomy of the Store collaborator (§6, §7). -/
inductive DBError where
  | connectionError : DBError
  | queryError : DBError
deriving DecidableEq, Repr

/-- Body of `fetch_data` including its try/except (app.py lines 31-62):
a Store failure is caught, reported via `st.error`, and converted into
an empty DataFrame return value. -/
def fetch_dataE (storeResult : Except DBError (List Record))
    (show_all : Bool) (w : ℕ) : Snapshot × Option DBError :=
  match storeResult with
  | Except.ok tbl => (fetch_data tbl show_all w, none)
  | Except.error e => (emptySnapshot, some e)

/-- One scheduler tick around the cached `fetch_data`: on a fresh cache
hit the stored snapshot is returned and nothing is reported; on a miss
the fallible fetch runs, its reported error (if any) surfaces, and the
value it returned — the empty DataFrame in the error case — is stored
in the cache.  The script then sleeps and reruns unconditionally
(app.py lines 144-145), so the tick always returns normally. -/
def tick (c : Cache Bool Snapshot)
    (storeResult : Except DBError (List Record)) (show_all : Bool)
    (w : ℕ) (ttl now : ℚ) :
    Snapshot × Cache Bool Snapshot × Option DBError :=
  let r := getOrCompute c show_all ttl
    (fun _ => (fetch_dataE storeResult show_all w).1) now
  (r.1, r.2.1, if r.2.2 then (fetch_dataE storeResult show_all w).2 else none)

/-- C2: the claim that two pipeline invocations may share a cache entry
only when both their query mode and their `window_size` agree.  Refuted:
a call with window 1 fills the cache, and a later call with window 3 and
the same mode gets that entry back unchanged — its rolling column is the
window-1 one, not what window 3 would compute. -/
theorem c2_counterexample :
    (pipelineCall [⟨0, some 10⟩, ⟨1, some 20⟩, ⟨2, some 60⟩]
        ((pipelineCall [⟨0, some 10⟩, ⟨1, some 20⟩, ⟨2, some 60⟩]
          (Cache.empty Bool Snapshot) false 1 10 0).2.1) false 3 10 1).2.2
      = false ∧
    (pipelineCall [⟨0, some 10⟩, ⟨1, some 20⟩, ⟨2, some 60⟩]
        ((pipelineCall [⟨0, some 10⟩, ⟨1, some 20⟩, ⟨2, some 60⟩]
          (Cache.empty Bool Snapshot) false 1 10 0).2.1) false 3 10 1).1
      = (pipelineCall [⟨0, some 10⟩, ⟨1, some 20⟩, ⟨2, some 60⟩]
          (Cache.empty Bool Snapshot) false 1 10 0).1 ∧
    (pipelineCall [⟨0, some 10⟩, ⟨1, some 20⟩, ⟨2, some 60⟩]
        ((pipelineCall [⟨0, some 10⟩, ⟨1, some 20⟩, ⟨2, some 60⟩]
          (Cache.empty Bool Snapshot) false 1 10 0).2.1) false 3 10 1).1.rolling_avg
      ≠ rollingAvg [10, 20, 60] 3 := by
  refine ⟨?_, ?_, ?_⟩ <;>
    norm_num [pipelineCall, getOrCompute, Cache.empty, Cache.store,
      fetch_data, computeSnapshot, runQuery, normalize, parseRecord,
      byTime, byTimeDesc, List.insertionSort, List.orderedInsert,
      rollingAvg, windowMean, windowSlice, rateOfChange, List.range_succ]

/-- C2 (amended): the cache key of the decorated `fetch_data` is the
query mode (`show_all`) alone; any unexpired entry for that mode is
returned unchanged whatever `window_size` the caller holds, so cached
rolling statistics may have been computed under a different window. -/
theorem c2_cache_key_is_mode_only (tbl : List Record)
    (c : Cache Bool Snapshot) (sa : Bool) (w w2 : ℕ) (ttl now : ℚ)
    (e : CacheEntry Snapshot) (h1 : c sa = some e)
    (h2 : now - e.produced_at < ttl) :
    pipelineCall tbl c sa w ttl now = (e.value, c, false) ∧
    pipelineCall tbl c sa w ttl now = pipelineCall tbl c sa w2 ttl now := by
  have hcall : ∀ w3 : ℕ, pipelineCall tbl c sa w3 ttl now = (e.value, c, false) := by
    intro w3
    unfold pipelineCall getOrCompute
    rw [h1]
    simp [h2]
  exact ⟨hcall w, (hcall w).trans (hcall w2).symm⟩

/-- Witness for C2 (amended): a fresh entry is handed to callers holding
windows 1 and 99 alike. -/
theorem c2_cache_key_is_mode_only_witness :
    pipelineCall [] ((Cache.empty Bool Snapshot).store false
        ⟨emptySnapshot, 0⟩) false 1 10 1
      = (emptySnapshot, (Cache.empty Bool Snapshot).store false
        ⟨emptySnapshot, 0⟩, false) ∧
    pipelineCall [] ((Cache.empty Bool Snapshot).store false
        ⟨emptySnapshot, 0⟩) false 1 10 1
      = pipelineCall [] ((Cache.empty Bool Snapshot).store false
        ⟨emptySnapshot, 0⟩) false 99 10 1 := by
  exact c2_cache_key_is_mode_only [] _ false 1 99 10 1 ⟨emptySnapshot, 0⟩
    (by simp [Cache.empty, Cache.store]) (by norm_num)

/-- C3: the claim that on a fetch failure the previously computed
Snapshot is retained rather than cleared or replaced.  Refuted: with an
expired entry holding a one-record snapshot, a failing tick reports the
error but stores and returns the empty DataFrame — the old snapshot is
gone from the cache. -/
theorem c3_counterexample :
    (tick ((Cache.empty Bool Snapshot).store false
        ⟨⟨[⟨0, 5⟩], [5], [FP.nan]⟩, 0⟩)
      (Except.error DBError.connectionError) false 1 10 100).2.2
      = some DBError.connectionError ∧
    (tick ((Cache.empty Bool Snapshot).store false
        ⟨⟨[⟨0, 5⟩], [5], [FP.nan]⟩, 0⟩)
      (Except.error DBError.connectionError) false 1 10 100).1
      = emptySnapshot ∧
    (tick ((Cache.empty Bool Snapshot).store false
        ⟨⟨[⟨0, 5⟩], [5], [FP.nan]⟩, 0⟩)
      (Except.error DBError.connectionError) false 1 10 100).2.1 false
      = some ⟨emptySnapshot, 100⟩ ∧
    (⟨[⟨0, 5⟩], [5], [FP.nan]⟩ : Snapshot) ≠ emptySnapshot := by
  refine ⟨?_, ?_, ?_, ?_⟩ <;>
    norm_num [tick, getOrCompute, Cache.empty, Cache.store, fetch_dataE,
      emptySnapshot]

/-- C3 (amended): when no fresh cache entry exists and the fetch fails,
the error is reported and the script still proceeds to sleep and rerun,
but the empty DataFrame produced by the except-branch is returned and
stored under the key — the previous Snapshot is replaced, not
retained. -/
theorem c3_error_replaces_snapshot (c : Cache Bool Snapshot) (sa : Bool)
    (w : ℕ) (ttl now : ℚ) (err : DBError)
    (h : ∀ e, c sa = some e → ¬ now - e.produced_at < ttl) :
    tick c (Except.error err) sa w ttl now =
      (emptySnapshot, c.store sa ⟨emptySnapshot, now⟩, some err) := by
  unfold tick getOrCompute fetch_dataE
  cases hc : c sa with
  | none => simp
  | some e => simp [h e hc]

/-- Witness for C3 (amended) on an empty cache and a failing query. -/
theorem c3_error_replaces_snapshot_witness :
    tick (Cache.empty Bool Snapshot) (Except.error DBError.queryError)
        false 3 10 0 =
      (emptySnapshot, (Cache.empty Bool Snapshot).store false
        ⟨emptySnapshot, 0⟩, some DBError.queryError) := by
  refine c3_error_replaces_snapshot (Cache.empty Bool Snapshot) false 3 10 0
    DBError.queryError ?_
  intro e he
  simp [Cache.empty] at he

/-- C8: an unexpired entry for the key is returned without invoking the
producer, and — starting with no entry for the key — two calls within
`ttl` of each other invoke the producer exactly once, the second call
returning the first call's stored snapshot from cache. -/
theorem c8_cache_hit_within_ttl (c : Cache Bool Snapshot) (k : Bool)
    (ttl : ℚ) (p : Unit → Snapshot) (now : ℚ) (e : CacheEntry Snapshot)
    (h1 : c k = some e) (h2 : now - e.produced_at < ttl)
    (c0 : Cache Bool Snapshot) (h0 : c0 k = none) (t1 t2 : ℚ)
    (hT : t2 - t1 < ttl) :
    getOrCompute c k ttl p now = (e.value, c, false) ∧
    (getOrCompute c0 k ttl p t1).2.2 = true ∧
    getOrCompute (getOrCompute c0 k ttl p t1).2.1 k ttl p t2 =
      (p (), (getOrCompute c0 k ttl p t1).2.1, false) := by
  refine ⟨?_, ?_, ?_⟩
  · unfold getOrCompute
    rw [h1]
    simp [h2]
  · unfold getOrCompute
    rw [h0]
  · unfold getOrCompute
    rw [h0]
    simp [Cache.store, hT]

/-- Witness for C8 at a concrete cache, key, and producer. -/
theorem c8_cache_hit_within_ttl_witness :
    getOrCompute ((Cache.empty Bool Snapshot).store true
        ⟨emptySnapshot, 0⟩) true 10 (fun _ => emptySnapshot) 1
      = (emptySnapshot, (Cache.empty Bool Snapshot).store true
        ⟨emptySnapshot, 0⟩, false) ∧
    (getOrCompute (Cache.empty Bool Snapshot) true 10
        (fun _ => emptySnapshot) 3).2.2 = true ∧
    getOrCompute (getOrCompute (Cache.empty Bool Snapshot) true 10
        (fun _ => emptySnapshot) 3).2.1 true 10 (fun _ => emptySnapshot) 4
      = (emptySnapshot, (getOrCompute (Cache.empty Bool Snapshot) true 10
        (fun _ => emptySnapshot) 3).2.1, false) := by
  exact c8_cache_hit_within_ttl _ true 10 (fun _ => emptySnapshot) 1
    ⟨emptySnapshot, 0⟩ (by simp [Cache.empty, Cache.store]) (by norm_num)
    (Cache.empty Bool Snapshot) (by simp [Cache.empty]) 3 4 (by norm_num)

/-- C10: with View All History disabled the query carries `limit(500)`,
so the cleaned series produced by `fetch_data` never holds more than 500
records, whatever the Store's table contains. -/
theorem c10_recent_limit_bounds_series (tbl : List Record) (w : ℕ) :
    (fetch_data tbl false w).series.length ≤ 500 := by
  show (normalize ((List.insertionSort byTimeDesc tbl).take 500)).length ≤ 500
  unfold normalize
  rw [List.length_insertionSort]
  calc (List.filterMap parseRecord
        ((List.insertionSort byTimeDesc tbl).take 500)).length
      ≤ ((List.insertionSort byTimeDesc tbl).take 500).length :=
        List.length_filterMap_le parseRecord _
    _ ≤ 500 := by
        rw [List.length_take]
        exact min_le_left 500 _

end SensorApp
